import Mathlib

/-! Shallow embedding of the DHCP responder in `src/server/server.go`
(dmitry-vovk/dhcp-server) together with the behaviour of the external
functions it calls (`github.com/krolaw/dhcp4` packet accessors, Go
`net.IP` equality, gopacket layer accessors).  Go byte slices are
`List Nat` (each element a byte value), Go `net.IP` values are
`Option (List Nat)` so that the nil slice is distinguishable from a
non-nil slice, and Go panics are explicit constructors of the result
types.  The response-body builders (`DataPacket.OfferResponse` and
friends) and the lease store live outside the verified core and are
abstract function fields.  `raw_packet.RawPacket.Marshal` is repository
code that is not under `src/`; it is modelled from the specification
(see its doc comment). -/

set_option maxRecDepth 100000

namespace DhcpModel

/-- Model of Go `net.IP` (a byte slice): `none` is the nil slice, `some bs`
a non-nil slice with bytes `bs`. -/
abbrev NetIP := Option (List Nat)

/-- Byte view of a `net.IP` value; the nil slice reads as the empty byte list
(Go `len(nil) = 0`). -/
def ipBytes : NetIP → List Nat
  | none => []
  | some bs => bs

/-- The 12 leading bytes Go `net.IPv4` places before the 4 address bytes
(10 zero bytes then `0xff, 0xff`). -/
def v4InV6 : List Nat := [0, 0, 0, 0, 0, 0, 0, 0, 0, 0, 255, 255]

/-- Go `net.IPv4(a, b, c, d)`: a non-nil 16-byte address holding the
IPv4-in-IPv6 leading bytes followed by the four address bytes. -/
def netIPv4 (bs : List Nat) : NetIP := some (v4InV6 ++ bs)

/-- Go `net.IP.Equal`: equal lengths compare byte-wise; a 4-byte address
equals a 16-byte address exactly when the 16-byte one is the 4-byte one
behind the `v4InV6` leading bytes. -/
def ipEqual (a b : NetIP) : Bool :=
  let x := ipBytes a
  let y := ipBytes b
  if x.length = y.length then x == y
  else if x.length = 4 ∧ y.length = 16 then (y.take 12 == v4InV6) && (x == y.drop 12)
  else if x.length = 16 ∧ y.length = 4 then (x.take 12 == v4InV6) && (x.drop 12 == y)
  else false

/-- Go slice `== nil` comparison on a `net.IP` value. -/
def ipIsNilSlice : NetIP → Bool
  | none => true
  | some _ => false

/-- DHCP message type `dhcp4.Discover`. -/
def dhcp4Discover : Nat := 1

/-- DHCP message type `dhcp4.Offer`. -/
def dhcp4Offer : Nat := 2

/-- DHCP message type `dhcp4.Request`. -/
def dhcp4Request : Nat := 3

/-- DHCP message type `dhcp4.ACK`. -/
def dhcp4ACK : Nat := 5

/-- DHCP message type `dhcp4.NAK`. -/
def dhcp4NAK : Nat := 6

/-- Library accessor `dhcp4.Packet.CIAddr`, which is `net.IP(p[12:16])`:
whenever the slicing is in range it returns a NON-nil 4-byte slice (bytes
12..15 of the DHCP payload).  A payload shorter than 16 bytes makes the
slicing panic; the callers in `server.go` model that case at the call
site. -/
def CIAddr (app : List Nat) : NetIP := some ((app.drop 12).take 4)

/-- Library accessor `dhcp4.Packet.Options`: the bytes after the fixed
240-byte DHCP header when the payload is longer than 240 bytes, else the
nil slice. -/
def dhcpOptionBytes (app : List Nat) : List Nat :=
  if 240 < app.length then app.drop 240 else []

/-- Go map assignment `m[k] = v` on the association-list model of
`dhcp4.Options`: replaces an existing binding or appends a new one. -/
def insertOpt (m : List (Nat × List Nat)) (k : Nat) (v : List Nat) :
    List (Nat × List Nat) :=
  match m with
  | [] => [(k, v)]
  | (k', v') :: rest => if k' = k then (k, v) :: rest else (k', v') :: insertOpt rest k v

/-- Go map lookup `m[k]` on the association-list model of `dhcp4.Options`. -/
def lookupOpt (m : List (Nat × List Nat)) (k : Nat) : Option (List Nat) :=
  match m with
  | [] => none
  | (k', v) :: rest => if k' = k then some v else lookupOpt rest k

/-- Loop of `dhcp4.Packet.ParseOptions`: while at least two bytes remain
and the code byte is not End (255): a Pad byte (0) is skipped; otherwise
the size byte is read, the loop stops if fewer bytes than the size remain,
and else the value is recorded under the code and the cursor moves past
code, size and value.  The fuel argument only bounds the iteration count;
every iteration consumes at least one byte, so `length + 1` fuel is never
exhausted. -/
def parseOptsLoop : Nat → List Nat → List (Nat × List Nat) → List (Nat × List Nat)
  | 0, _, acc => acc
  | _ + 1, [], acc => acc
  | _ + 1, [_], acc => acc
  | fuel + 1, c :: sz :: rest, acc =>
    if c = 255 then acc
    else if c = 0 then parseOptsLoop fuel (sz :: rest) acc
    else if rest.length < sz then acc
    else parseOptsLoop fuel (rest.drop sz) (insertOpt acc c (rest.take sz))

/-- Library function `dhcp4.Packet.ParseOptions` on a DHCP payload. -/
def parseOptions (app : List Nat) : List (Nat × List Nat) :=
  parseOptsLoop ((dhcpOptionBytes app).length + 1) (dhcpOptionBytes app) []

/-- Fields of `config.ServerConfig` that `server.go` reads. -/
structure ServerConfig where
  Listen : String
  MyMac : List Nat
  MyAddress : NetIP
deriving DecidableEq

/-- Field of `config.Lease` that `server.go` reads; the remaining lease
parameters are owned by the external resolver and never inspected here. -/
structure Lease where
  Ip : NetIP
deriving DecidableEq

/-- The `Dhcp` part of `DataPacket` as assigned by `parsePacket`
(server.go:212-233). -/
structure DhcpData where
  packet : List Nat
  Options : List (Nat × List Nat)
  MsgType : Nat
  HostName : List Nat
  RequestList : List Nat
  RequestedIp : NetIP
deriving DecidableEq

/-- The decoded request structure `DataPacket` as assigned by
`parsePacket` (server.go:193-234). -/
structure DataPacket where
  SrcMac : List Nat
  DstMac : List Nat
  EtherType : Nat
  VLan : List Nat
  SrcIP : NetIP
  DstIP : NetIP
  SrcPort : Nat
  DstPort : Nat
  app : List Nat
  OpCode : Nat
  Dhcp : DhcpData
deriving DecidableEq

/-- The outbound decision structure `raw_packet.RawPacket`, with exactly
the fields the struct literals in `prepareOffer`, `prepareAck` and
`prepareNak` populate. -/
structure RawPacket where
  DhcpType : Nat
  EtherType : Nat
  VLan : List Nat
  Payload : List Nat
  SrcIp : NetIP
  DstIp : NetIP
  OfferedIp : NetIP
  DstMac : List Nat
  SrcMac : List Nat
deriving DecidableEq

/-- Big-endian byte pair of a 16-bit value. -/
def u16be (x : Nat) : List Nat := [x / 256 % 256, x % 256]

/-- Big-endian 16-bit words of a byte list, as summed by the internet
checksum; a trailing lone byte is padded with a zero low byte. -/
def words16 : List Nat → List Nat
  | a :: b :: rest => ((a % 256) * 256 + b % 256) :: words16 rest
  | [a] => [(a % 256) * 256]
  | [] => []

/-- One step of end-around carry folding for the internet checksum. -/
def addCarry (n : Nat) : Nat := n % 65536 + n / 65536

/-- One's-complement 16-bit checksum (RFC 791) of a byte sequence.  Two
carry folds are exact for any word sum below 2^32, which covers every
20-byte header. -/
def inetChecksum (bs : List Nat) : Nat :=
  65535 - addCarry (addCarry ((words16 bs).foldl (fun acc w => acc + w) 0))

/-- Four low address bytes of a `net.IP` value (the behaviour of Go
`net.IP.To4` on the two well-formed lengths), used by the modelled
encoder. -/
def ip4of (ip : NetIP) : List Nat :=
  let bs := ipBytes ip
  if bs.length = 4 then bs
  else if bs.length = 16 then bs.drop 12
  else [0, 0, 0, 0]

/-- Byte chain of stacked 802.1Q tags: each entry contributes its 16-bit
tag control bytes followed by the next EtherType — `0x8100` (33024) while
tags remain, `0x0800` (2048, IPv4) after the last tag. -/
def vlanTagBytes : List Nat → List Nat
  | [] => []
  | t :: rest => u16be t ++ u16be (if rest.isEmpty then 2048 else 33024) ++ vlanTagBytes rest

/-- Modelled from the spec: `raw_packet.RawPacket.Marshal` lives in the
repository's `raw_packet` package, which is not under `src/`.  This
follows section 4.3 (FrameEncoder) of the specification: Ethernet header
(destination MAC, source MAC, EtherType `0x8100` when the VLAN sequence
is non-empty else `0x0800`), one 4-byte 802.1Q tag per VLAN entry outer
to inner each followed by the next tag identifier or the final IPv4
EtherType, a 20-byte IPv4 header (source = configured server address,
destination = the decision's destination IP, protocol UDP, total length
`20 + 8 + |payload|`, computed header checksum), an 8-byte UDP header
(ports 67 to 68, zero checksum), then the payload verbatim.  Header
fields the spec leaves open (TOS, identification, flags, TTL) are fixed
as 0, 0, 0, 64. -/
def marshalAfterMacs (r : RawPacket) : List Nat :=
  let ipLen := 20 + 8 + r.Payload.length
  let ipPre := [69, 0] ++ u16be ipLen ++ [0, 0, 0, 0, 64, 17]
  let ipCk := inetChecksum (ipPre ++ [0, 0] ++ ip4of r.SrcIp ++ ip4of r.DstIp)
  let ipHdr := ipPre ++ u16be ipCk ++ ip4of r.SrcIp ++ ip4of r.DstIp
  let udpHdr := u16be 67 ++ u16be 68 ++ u16be (8 + r.Payload.length) ++ [0, 0]
  u16be (if r.VLan.isEmpty then 2048 else 33024) ++
    (vlanTagBytes r.VLan ++ (ipHdr ++ (udpHdr ++ r.Payload)))

/-- Modelled from the spec, continued: the full encoded frame is the
destination MAC, the source MAC, then everything after the MACs. -/
def RawPacket.Marshal (r : RawPacket) : List Nat :=
  r.DstMac ++ (r.SrcMac ++ marshalAfterMacs r)

/-- The state of `DhcpServer` that the decision pipeline reads.  The
resolver is the external `Resolver` capability; the three response-body
builders model `DataPacket.OfferResponse` / `AckResponse` / `NakResponse`
(repository code outside `src/`; the spec declares DHCP option payload
construction external to the core, which only transports the bytes). -/
structure DhcpServer where
  config : ServerConfig
  ifIndex : Nat
  resolver : DataPacket → Option Lease
  offerResponse : DataPacket → Lease → List Nat
  ackResponse : DataPacket → Lease → List Nat
  nakResponse : DataPacket → Lease → List Nat

/-- Outcome of running a piece of Go code that may panic. -/
inductive GoResult (α : Type) where
  | ok : α → GoResult α
  | panicked : GoResult α
deriving DecidableEq

/-- Function `prepareOffer` (server.go:145-159). -/
def prepareOffer (s : DhcpServer) (p : DataPacket) (lease : Lease) : RawPacket :=
  { DhcpType := dhcp4Offer
    EtherType := p.EtherType
    VLan := p.VLan
    Payload := s.offerResponse p lease
    SrcIp := s.config.MyAddress
    DstIp := p.SrcIP
    OfferedIp := lease.Ip
    DstMac := p.SrcMac
    SrcMac := s.config.MyMac }

/-- Function `prepareAck` (server.go:161-175); note `DstIp` is
`p.Dhcp.packet.CIAddr()`, the client-IP field of the request. -/
def prepareAck (s : DhcpServer) (p : DataPacket) (lease : Lease) : RawPacket :=
  { DhcpType := dhcp4ACK
    EtherType := p.EtherType
    VLan := p.VLan
    Payload := s.ackResponse p lease
    SrcIp := s.config.MyAddress
    DstIp := CIAddr p.app
    OfferedIp := lease.Ip
    DstMac := p.SrcMac
    SrcMac := s.config.MyMac }

/-- Function `prepareNak` (server.go:177-191). -/
def prepareNak (s : DhcpServer) (p : DataPacket) (lease : Lease) : RawPacket :=
  { DhcpType := dhcp4NAK
    EtherType := p.EtherType
    VLan := p.VLan
    Payload := s.nakResponse p lease
    SrcIp := s.config.MyAddress
    DstIp := p.SrcIP
    OfferedIp := lease.Ip
    DstMac := p.SrcMac
    SrcMac := s.config.MyMac }

/-- Function `processRequest` (server.go:123-136).  `CIAddr()` slices
`p[12:16]` out of the DHCP payload: on a payload shorter than 16 bytes
that slicing panics (first reached inside the first branch condition),
and on success it yields a non-nil slice, so `== nil` is
`ipIsNilSlice (CIAddr p.app)`. -/
def processRequest (s : DhcpServer) (p : DataPacket) : GoResult (Option RawPacket) :=
  match s.resolver p with
  | none => .ok none
  | some lease =>
    if p.app.length < 16 then .panicked
    else if ipIsNilSlice (CIAddr p.app) then .ok (some (prepareOffer s p lease))
    else if ipEqual lease.Ip (CIAddr p.app) then .ok (some (prepareAck s p lease))
    else if ipEqual lease.Ip p.Dhcp.RequestedIp then .ok (some (prepareAck s p lease))
    else .ok (some (prepareNak s p lease))

/-- Function `processDiscover` (server.go:138-143). -/
def processDiscover (s : DhcpServer) (p : DataPacket) : Option RawPacket :=
  match s.resolver p with
  | some lease => some (prepareOffer s p lease)
  | none => none

/-- The fields of `syscall.SockaddrLinklayer` that `run`/`respond`
populate (server.go:67-72 and 108-109). -/
structure SockaddrLinklayer where
  Protocol : Nat
  Halen : Nat
  Pkttype : Nat
  Ifindex : Nat
  Addr : List Nat
deriving DecidableEq

/-- The eight `Addr` bytes produced by `copy(addr.Addr[:], p.DstMac[0:8])`
(server.go:109).  `p.DstMac` is the six-byte destination-MAC window into
the captured frame and its capacity reaches into the adjacent bytes, so
the Go slice `p.DstMac[0:8]` is the destination MAC followed by the first
two source-MAC bytes (the frame stores them contiguously); the copy lands
in a zero-initialised 8-byte array. -/
def copiedAddr (p : DataPacket) : List Nat :=
  (p.DstMac ++ p.SrcMac).take 8 ++
    List.replicate (8 - ((p.DstMac ++ p.SrcMac).take 8).length) 0

/-- The sockaddr handed to `syscall.Sendto` by `respond`
(server.go:108-110): `s.addr` (protocol 4, halen 6, pkttype 0, the bound
interface index) with its address bytes copied from the request. -/
def respondAddr (s : DhcpServer) (p : DataPacket) : SockaddrLinklayer :=
  { Protocol := 4, Halen := 6, Pkttype := 0, Ifindex := s.ifIndex, Addr := copiedAddr p }

/-- What one call of `respond` hands to the raw socket: either a
`Sendto` of the marshalled response bytes with a link-layer sockaddr, or
nothing (the not-responding log path). -/
inductive SendAction where
  | sent (frame : List Nat) (addr : SockaddrLinklayer)
  | noResponse
deriving DecidableEq

/-- Function `respond` (server.go:90-121): dispatch on the DHCP message
type (`Request` and `Discover` are handled, everything else logs and
produces no response), then transmit a non-nil response via `Sendto`.
The result of the transmission itself is external (its failure path calls
`log.Fatalf`). -/
def respond (s : DhcpServer) (p : DataPacket) : GoResult SendAction :=
  match (if p.Dhcp.MsgType = dhcp4Request then processRequest s p
         else if p.Dhcp.MsgType = dhcp4Discover then GoResult.ok (processDiscover s p)
         else GoResult.ok none) with
  | .panicked => .panicked
  | .ok none => .ok .noResponse
  | .ok (some r) => .ok (.sent r.Marshal (respondAddr s p))

/-- One decoded gopacket layer, restricted to the layer kinds
`parsePacket` can observe through the accessors it calls.  A `dot1Q`
layer carries its four content bytes (two tag-control bytes, two
encapsulated-EtherType bytes), as gopacket only yields a Dot1Q layer for
exactly four header bytes. -/
inductive Layer where
  | ethernet (srcMAC dstMAC : List Nat) (etherType : Nat)
  | dot1Q (c0 c1 c2 c3 : Nat)
  | ipv4 (srcIP dstIP : List Nat)
  | ipv6
  | udp (srcPort dstPort : Nat)
  | appPayload (bytes : List Nat)
  | otherLayer
deriving DecidableEq

/-- A gopacket `Packet` as `parsePacket` sees it: the decoded layer
list. -/
structure GoPacket where
  layers : List Layer
deriving DecidableEq

/-- Whether a layer is the link layer (`gopacket.Packet.LinkLayer` yields
the first one). -/
def isLink : Layer → Bool
  | .ethernet _ _ _ => true
  | _ => false

/-- Whether a layer is a network layer (`gopacket.Packet.NetworkLayer`
yields the first one, IPv4 or IPv6). -/
def isNetwork : Layer → Bool
  | .ipv4 _ _ => true
  | .ipv6 => true
  | _ => false

/-- Whether a layer is a transport layer (`gopacket.Packet.TransportLayer`
yields the first one). -/
def isTransport : Layer → Bool
  | .udp _ _ => true
  | _ => false

/-- Whether a layer is the application layer
(`gopacket.Packet.ApplicationLayer` yields the first one). -/
def isApplication : Layer → Bool
  | .appPayload _ => true
  | _ => false

/-- `gopacket.Packet.LinkLayer`. -/
def linkLayer (p : GoPacket) : Option Layer := p.layers.find? isLink

/-- `gopacket.Packet.NetworkLayer`. -/
def networkLayer (p : GoPacket) : Option Layer := p.layers.find? isNetwork

/-- `gopacket.Packet.TransportLayer`. -/
def transportLayer (p : GoPacket) : Option Layer := p.layers.find? isTransport

/-- `gopacket.Packet.ApplicationLayer`. -/
def applicationLayer (p : GoPacket) : Option Layer := p.layers.find? isApplication

/-- The VLAN loop of `parsePacket` (server.go:199-203): for every Dot1Q
layer, in order, append `uint16(contents[0])<<8 + uint16(contents[1])` —
the FULL 16 tag-control bits (priority, drop-eligible and id together),
with no 12-bit mask. -/
def extractVlans : List Layer → List Nat
  | [] => []
  | .dot1Q c0 c1 _ _ :: rest => ((c0 % 256) * 256 + c1 % 256) % 65536 :: extractVlans rest
  | _ :: rest => extractVlans rest

/-- Outcome of `parsePacket`: a decoded `DataPacket`, a returned decode
error (the `error` result), or a Go panic from a failed type assertion /
nil dereference / out-of-range index. -/
inductive ParseOutcome where
  | parsed : DataPacket → ParseOutcome
  | errored : String → ParseOutcome
  | panicked : ParseOutcome
deriving DecidableEq

/-- The field assignments of `parsePacket` (server.go:194-233) after the
message-type option has been handled: host name from option 12 when
present, parameter request list from option 55 when present, requested IP
from option 50 only when its value is exactly 4 bytes (any other length
leaves the field as the nil zero value, with no error). -/
def buildDataPacket (srcM dstM : List Nat) (et : Nat) (vlans : List Nat)
    (sip dip : List Nat) (sport dport : Nat) (app : List Nat) (op : Nat)
    (opts : List (Nat × List Nat)) (mt : Nat) : DataPacket :=
  { SrcMac := srcM, DstMac := dstM, EtherType := et, VLan := vlans,
    SrcIP := some sip, DstIP := some dip, SrcPort := sport, DstPort := dport,
    app := app, OpCode := op,
    Dhcp := { packet := app, Options := opts, MsgType := mt,
              HostName := (lookupOpt opts 12).getD [],
              RequestList := (lookupOpt opts 55).getD [],
              RequestedIp := match lookupOpt opts 50 with
                             | some v => if v.length = 4 then netIPv4 v else none
                             | none => none } }

/-- Function `parsePacket` (server.go:193-234).  The unchecked type
assertions `p.LinkLayer().(*layers.Ethernet)`,
`p.NetworkLayer().(*layers.IPv4)`, `p.TransportLayer().(*layers.UDP)`,
the `p.ApplicationLayer().Payload()` call on a possibly nil interface and
the `dp.app[0]` index are Go panics when they fail, modelled as
`ParseOutcome.panicked`.  The only returned error is the malformed
message-type option (option 53 whose value is not exactly one byte). -/
def parsePacket (pkt : GoPacket) : ParseOutcome :=
  match linkLayer pkt with
  | some (.ethernet srcM dstM et) =>
    match networkLayer pkt with
    | some (.ipv4 sip dip) =>
      match transportLayer pkt with
      | some (.udp sport dport) =>
        match applicationLayer pkt with
        | some (.appPayload app) =>
          match app with
          | [] => .panicked
          | op :: _ =>
            match lookupOpt (parseOptions app) 53 with
            | some mtv =>
              if mtv.length ≠ 1 then .errored "Cannot parse DHCP message type"
              else .parsed (buildDataPacket srcM dstM et (extractVlans pkt.layers) sip dip sport dport app op (parseOptions app) (mtv.headD 0))
            | none => .parsed (buildDataPacket srcM dstM et (extractVlans pkt.layers) sip dip sport dport app op (parseOptions app) 0)
        | _ => .panicked
      | _ => .panicked
    | _ => .panicked
  | _ => .panicked

/-- Outcome of one iteration of the dispatcher loop. -/
inductive IterOutcome where
  | dropped (e : String)
  | handled (act : SendAction)
  | crashed
deriving DecidableEq

/-- One iteration of the dispatcher loop `run` (server.go:73-87): a
returned decode error is printed and the loop continues with the next
frame; a decoded packet is logged and handed to `respond`; a Go panic
anywhere terminates the process. -/
def runStep (s : DhcpServer) (pkt : GoPacket) : IterOutcome :=
  match parsePacket pkt with
  | .errored e => .dropped e
  | .panicked => .crashed
  | .parsed p =>
    match respond s p with
    | .panicked => .crashed
    | .ok act => .handled act

/-- DHCP message type of a produced decision, when one was produced. -/
def decisionType : GoResult (Option RawPacket) → Option Nat
  | .ok (some r) => some r.DhcpType
  | _ => none

/-- Destination IP of a produced decision, when one was produced. -/
def decisionDstIp : GoResult (Option RawPacket) → Option NetIP
  | .ok (some r) => some r.DstIp
  | _ => none

/-- VLAN sequence of a successfully decoded request. -/
def parsedVlans : ParseOutcome → Option (List Nat)
  | .parsed p => some p.VLan
  | _ => none

/-- Message type of a successfully decoded request. -/
def msgTypeOf : ParseOutcome → Option Nat
  | .parsed p => some p.Dhcp.MsgType
  | _ => none

/-- Requested-IP field of a successfully decoded request. -/
def requestedIpOf : ParseOutcome → Option NetIP
  | .parsed p => some p.Dhcp.RequestedIp
  | _ => none

/-- Sockaddr address bytes of a transmitted response, when one was
transmitted. -/
def sentAddrBytes : GoResult SendAction → Option (List Nat)
  | .ok (.sent _ a) => some a.Addr
  | _ => none

/-- First six sockaddr address bytes (`Halen = 6`) of a transmitted
response. -/
def sentAddrMac : GoResult SendAction → Option (List Nat)
  | .ok (.sent _ a) => some (a.Addr.take 6)
  | _ => none

/-- First six bytes (the Ethernet destination MAC) of a transmitted
response frame. -/
def sentFrameDstMac : GoResult SendAction → Option (List Nat)
  | .ok (.sent f _) => some (f.take 6)
  | _ => none

/-- Whether the network layer is an IPv4 layer. -/
def isIPv4Opt : Option Layer → Bool
  | some (.ipv4 _ _) => true
  | _ => false

/-- Client MAC used by the concrete test inputs. -/
def macA : List Nat := [170, 187, 204, 221, 238, 255]

/-- Broadcast MAC used by the concrete test inputs. -/
def macB : List Nat := [255, 255, 255, 255, 255, 255]

/-- Server MAC used by the concrete test inputs. -/
def serverMac : List Nat := [2, 0, 0, 0, 0, 1]

/-- A DHCP payload with opcode 1, the given four client-IP bytes at
offsets 12..15, zeroes elsewhere in the fixed 240-byte header, and the
given option bytes after it. -/
def mkDhcpBytes (ciaddr opts : List Nat) : List Nat :=
  1 :: (List.replicate 11 0 ++ ciaddr ++ List.replicate 224 0 ++ opts)

/-- Concrete lease 10.0.0.50. -/
def leaseA : Lease := { Ip := some [10, 0, 0, 50] }

/-- Concrete server configuration. -/
def cConfig : ServerConfig :=
  { Listen := "eth0", MyMac := serverMac, MyAddress := some [192, 168, 1, 1] }

/-- Concrete server whose resolver always yields `leaseA` and whose
external body builders produce empty payloads. -/
def cServer : DhcpServer :=
  { config := cConfig, ifIndex := 2,
    resolver := fun _ => some leaseA,
    offerResponse := fun _ _ => [],
    ackResponse := fun _ _ => [],
    nakResponse := fun _ _ => [] }

/-- A decoded `DataPacket` with the given message type, DHCP payload and
requested IP, from client `macA` to broadcast. -/
def mkDp (mt : Nat) (app : List Nat) (reqIp : NetIP) : DataPacket :=
  { SrcMac := macA, DstMac := macB, EtherType := 2048, VLan := [],
    SrcIP := some [192, 168, 1, 99], DstIP := some [255, 255, 255, 255],
    SrcPort := 68, DstPort := 67, app := app, OpCode := 1,
    Dhcp := { packet := app, Options := parseOptions app, MsgType := mt,
              HostName := [], RequestList := [], RequestedIp := reqIp } }

/-- DHCP Request payload with a zero client-IP field and only the
message-type option (Request). -/
def cAppZeroCi : List Nat := mkDhcpBytes [0, 0, 0, 0] [53, 1, 3, 255]

/-- Decoded Request whose client-IP field is 0.0.0.0 and which carries no
requested-IP option. -/
def cReqZeroCi : DataPacket := mkDp dhcp4Request cAppZeroCi none

/-- DHCP Discover payload. -/
def cAppDisc : List Nat := mkDhcpBytes [0, 0, 0, 0] [53, 1, 1, 255]

/-- Decoded Discover message. -/
def cDiscover : DataPacket := mkDp dhcp4Discover cAppDisc none

/-- DHCP Request payload whose client-IP field is 192.168.1.77 and whose
requested-IP option asks for 10.0.0.50. -/
def cAppCi77 : List Nat :=
  mkDhcpBytes [192, 168, 1, 77] [53, 1, 3, 50, 4, 10, 0, 0, 50, 255]

/-- Decoded Request with client IP 192.168.1.77 and requested IP
10.0.0.50. -/
def cReqCi77 : DataPacket := mkDp dhcp4Request cAppCi77 (netIPv4 [10, 0, 0, 50])

/-- Full 16-bit tag-control value of a pair of tag-control bytes, as the
VLAN loop computes it. -/
def tciVal (t : Nat × Nat) : Nat := ((t.1 % 256) * 256 + t.2 % 256) % 65536

/-- A Dot1Q layer with the given two tag-control bytes, encapsulating
IPv4 (`0x0800`). -/
def tagLayer (t : Nat × Nat) : Layer := .dot1Q t.1 t.2 8 0

/-- A captured frame with the given stacked 802.1Q tag-control byte
pairs between an Ethernet header and an IPv4/UDP/DHCP-Discover body. -/
def mkTagged (tcis : List (Nat × Nat)) : GoPacket :=
  { layers := .ethernet macA macB 33024 :: (tcis.map tagLayer ++
      [.ipv4 [0, 0, 0, 0] [255, 255, 255, 255], .udp 68 67, .appPayload cAppDisc]) }

/-- A single-tagged frame whose tag has priority bits set (TCI bytes
`0xA0 0x64`: priority 5, id 100). -/
def prioTagged : GoPacket := mkTagged [(160, 100)]

/-- Two stacked tags used by witnesses. -/
def twoTags : List (Nat × Nat) := [(160, 100), (0, 200)]

/-- Three stacked tags used to refute the depth bound. -/
def threeTags : List (Nat × Nat) := [(0, 100), (0, 200), (1, 44)]

/-- A captured frame whose network layer is IPv6. -/
def ipv6Pkt : GoPacket :=
  { layers := [.ethernet macA macB 34525, .ipv6, .udp 68 67, .appPayload cAppDisc] }

/-- A well-formed IPv4/UDP frame carrying the given DHCP payload. -/
def mkIpv4Pkt (app : List Nat) : GoPacket :=
  { layers := [.ethernet macA macB 2048, .ipv4 [0, 0, 0, 0] [255, 255, 255, 255],
               .udp 68 67, .appPayload app] }

/-- Frame whose message-type option value has length two. -/
def badMsgTypePkt : GoPacket := mkIpv4Pkt (mkDhcpBytes [0, 0, 0, 0] [53, 2, 1, 1, 255])

/-- Frame with a one-byte message-type option (Request). -/
def goodMsgTypePkt : GoPacket := mkIpv4Pkt cAppZeroCi

/-- Frame with a 4-byte requested-IP option. -/
def reqIp4Pkt : GoPacket := mkIpv4Pkt cAppCi77

/-- Frame with a 2-byte requested-IP option. -/
def reqIp2Pkt : GoPacket := mkIpv4Pkt (mkDhcpBytes [0, 0, 0, 0] [53, 1, 3, 50, 2, 10, 0, 255])

/-- Helper: `CIAddr` never yields the nil slice, so the `== nil` test in
`processRequest` is never true. -/
theorem ciaddr_never_nil (app : List Nat) : ipIsNilSlice (CIAddr app) = false := rfl

/-- Helper: every decision `processRequest` produces carries the
request's source MAC as its destination MAC. -/
theorem processRequest_dstMac (s : DhcpServer) (p : DataPacket) (r : RawPacket)
    (h : processRequest s p = .ok (some r)) : r.DstMac = p.SrcMac := by
  cases hres : s.resolver p with
  | none => simp [processRequest, hres] at h
  | some lease =>
    simp only [processRequest, hres] at h
    split at h
    · simp at h
    split at h
    · simp only [GoResult.ok.injEq, Option.some.injEq] at h; subst h; rfl
    split at h
    · simp only [GoResult.ok.injEq, Option.some.injEq] at h; subst h; rfl
    split at h
    · simp only [GoResult.ok.injEq, Option.some.injEq] at h; subst h; rfl
    · simp only [GoResult.ok.injEq, Option.some.injEq] at h; subst h; rfl

/-- Helper: every decision `processDiscover` produces carries the
request's source MAC as its destination MAC. -/
theorem processDiscover_dstMac (s : DhcpServer) (p : DataPacket) (r : RawPacket)
    (h : processDiscover s p = some r) : r.DstMac = p.SrcMac := by
  cases hres : s.resolver p with
  | none => simp [processDiscover, hres] at h
  | some lease =>
    simp only [processDiscover, hres, Option.some.injEq] at h
    subst h
    rfl

/-- Helper: the first six bytes of a marshalled frame are its destination
MAC when that MAC has six bytes. -/
theorem marshal_take_six (r : RawPacket) (h : r.DstMac.length = 6) :
    r.Marshal.take 6 = r.DstMac := by
  unfold RawPacket.Marshal
  exact List.take_left' h

/-- Claim C1: a Request whose client-IP field is the zero address 0.0.0.0
should, per the claim, yield an Offer for the resolved lease.  Evaluating
the code on such a request (client-IP bytes 0,0,0,0; resolver yields
lease 10.0.0.50; no requested-IP option) instead yields a NAK, because
`CIAddr()` returns a non-nil 4-byte 0.0.0.0 slice, so the `== nil` test
guarding the Offer branch never fires and the zero address then fails
both lease comparisons. -/
theorem C1_zero_ciaddr_request_naks :
    CIAddr cReqZeroCi.app = some [0, 0, 0, 0] ∧
    cReqZeroCi.Dhcp.MsgType = dhcp4Request ∧
    decisionType (processRequest cServer cReqZeroCi) = some dhcp4NAK ∧
    decisionType (processRequest cServer cReqZeroCi) ≠ some dhcp4Offer := by
  refine ⟨by decide, by decide, by decide, by decide⟩

/-- Claim C10: each of the three response constructors stamps the
configured server MAC as source MAC, the configured server address as
source IP, the lease's IP as offered IP, the request's source MAC as
destination MAC, and copies the request's EtherType and VLAN sequence
verbatim. -/
theorem C10_response_shape (s : DhcpServer) (p : DataPacket) (lease : Lease) :
    ((prepareOffer s p lease).SrcMac = s.config.MyMac ∧
     (prepareOffer s p lease).SrcIp = s.config.MyAddress ∧
     (prepareOffer s p lease).OfferedIp = lease.Ip ∧
     (prepareOffer s p lease).DstMac = p.SrcMac ∧
     (prepareOffer s p lease).EtherType = p.EtherType ∧
     (prepareOffer s p lease).VLan = p.VLan) ∧
    ((prepareAck s p lease).SrcMac = s.config.MyMac ∧
     (prepareAck s p lease).SrcIp = s.config.MyAddress ∧
     (prepareAck s p lease).OfferedIp = lease.Ip ∧
     (prepareAck s p lease).DstMac = p.SrcMac ∧
     (prepareAck s p lease).EtherType = p.EtherType ∧
     (prepareAck s p lease).VLan = p.VLan) ∧
    ((prepareNak s p lease).SrcMac = s.config.MyMac ∧
     (prepareNak s p lease).SrcIp = s.config.MyAddress ∧
     (prepareNak s p lease).OfferedIp = lease.Ip ∧
     (prepareNak s p lease).DstMac = p.SrcMac ∧
     (prepareNak s p lease).EtherType = p.EtherType ∧
     (prepareNak s p lease).VLan = p.VLan) :=
  ⟨⟨rfl, rfl, rfl, rfl, rfl, rfl⟩, ⟨rfl, rfl, rfl, rfl, rfl, rfl⟩,
   ⟨rfl, rfl, rfl, rfl, rfl, rfl⟩⟩

/-- Claim C7: a Discover is answered with an Offer for the resolved
lease (offered IP = lease IP, destination IP = request's source IP,
destination MAC = request's source MAC), and with no decision when the
resolver yields no lease. -/
theorem C7_discover_offer (s : DhcpServer) (p : DataPacket) :
    (∀ lease, s.resolver p = some lease →
       processDiscover s p = some (prepareOffer s p lease) ∧
       (prepareOffer s p lease).DhcpType = dhcp4Offer ∧
       (prepareOffer s p lease).OfferedIp = lease.Ip ∧
       (prepareOffer s p lease).DstIp = p.SrcIP ∧
       (prepareOffer s p lease).DstMac = p.SrcMac) ∧
    (s.resolver p = none → processDiscover s p = none) := by
  constructor
  · intro lease hres
    refine ⟨?_, rfl, rfl, rfl, rfl⟩
    simp [processDiscover, hres]
  · intro hres
    simp [processDiscover, hres]

/-- Witness for C7 at the concrete Discover input. -/
theorem C7_discover_offer_witness :
    processDiscover cServer cDiscover = some (prepareOffer cServer cDiscover leaseA) ∧
    (prepareOffer cServer cDiscover leaseA).DhcpType = dhcp4Offer ∧
    (prepareOffer cServer cDiscover leaseA).OfferedIp = leaseA.Ip ∧
    (prepareOffer cServer cDiscover leaseA).DstIp = cDiscover.SrcIP ∧
    (prepareOffer cServer cDiscover leaseA).DstMac = cDiscover.SrcMac :=
  (C7_discover_offer cServer cDiscover).1 leaseA rfl

/-- Claim C3 counterexample: a Request with client IP 192.168.1.77
(non-zero, different from the lease IP 10.0.0.50) whose requested-IP
option names the lease IP is answered with an Ack — but the Ack's
destination IP is the client-IP field 192.168.1.77, not the request's
source IP 192.168.1.99 as the claim states. -/
theorem C3_ack_dstip_is_client_ip :
    decisionType (processRequest cServer cReqCi77) = some dhcp4ACK ∧
    decisionDstIp (processRequest cServer cReqCi77) = some (some [192, 168, 1, 77]) ∧
    cReqCi77.SrcIP = some [192, 168, 1, 99] ∧
    decisionDstIp (processRequest cServer cReqCi77) ≠ some cReqCi77.SrcIP := by
  refine ⟨by decide, by decide, by decide, by decide⟩

/-- Claim C3 (amended): when the resolver yields a lease, the client-IP
field differs from the lease IP, and the lease IP equals the requested-IP
option, the decision is an Ack for the lease whose destination IP is the
request's client-IP field (`CIAddr`), not the request's source IP. -/
theorem C3_amended_ack_to_client_ip (s : DhcpServer) (p : DataPacket) (lease : Lease)
    (hres : s.resolver p = some lease) (hlen : 16 ≤ p.app.length)
    (_hnz : CIAddr p.app ≠ some [0, 0, 0, 0])
    (hci : ipEqual lease.Ip (CIAddr p.app) = false)
    (hreq : ipEqual lease.Ip p.Dhcp.RequestedIp = true) :
    processRequest s p = .ok (some (prepareAck s p lease)) ∧
    (prepareAck s p lease).DhcpType = dhcp4ACK ∧
    (prepareAck s p lease).OfferedIp = lease.Ip ∧
    (prepareAck s p lease).DstIp = CIAddr p.app := by
  refine ⟨?_, rfl, rfl, rfl⟩
  simp only [processRequest, hres]
  rw [if_neg (by omega)]
  rw [if_neg (by simp [ciaddr_never_nil])]
  rw [if_neg (by simp [hci])]
  rw [if_pos hreq]

/-- Witness for the amended C3 at the concrete 192.168.1.77 request. -/
theorem C3_amended_ack_to_client_ip_witness :
    processRequest cServer cReqCi77 = .ok (some (prepareAck cServer cReqCi77 leaseA)) ∧
    (prepareAck cServer cReqCi77 leaseA).DhcpType = dhcp4ACK ∧
    (prepareAck cServer cReqCi77 leaseA).OfferedIp = leaseA.Ip ∧
    (prepareAck cServer cReqCi77 leaseA).DstIp = CIAddr cReqCi77.app :=
  C3_amended_ack_to_client_ip cServer cReqCi77 leaseA rfl (by decide) (by decide)
    (by decide) (by decide)

/-- Claim C2 counterexample: for the concrete Discover from source MAC
`aa:bb:cc:dd:ee:ff` to the broadcast destination MAC, `respond` builds a
decision whose destination MAC (the first six bytes of the encoded frame)
is the request's source MAC, yet the sockaddr handed to `Sendto` carries
the request's DESTINATION MAC bytes `ff:ff:ff:ff:ff:ff` (followed by two
stray source-MAC bytes), not the decision's destination MAC. -/
theorem C2_sockaddr_is_request_dstmac :
    sentAddrBytes (respond cServer cDiscover) = some [255, 255, 255, 255, 255, 255, 170, 187] ∧
    sentFrameDstMac (respond cServer cDiscover) = some macA ∧
    cDiscover.SrcMac = macA ∧
    cDiscover.DstMac = macB ∧
    sentAddrMac (respond cServer cDiscover) = some macB ∧
    sentAddrMac (respond cServer cDiscover) ≠ some cDiscover.SrcMac := by
  refine ⟨by decide, by decide, by decide, by decide, by decide, by decide⟩

/-- Claim C2 (amended): whenever `respond` transmits, the sockaddr handed
to the transmit call is populated from the originating request's
destination MAC (its first `Halen = 6` address bytes are `p.DstMac`),
while the decision's destination MAC — carried as the Ethernet
destination of the encoded frame, its first six bytes — equals the
request's source MAC. -/
theorem C2_amended_sendto_addressing (s : DhcpServer) (p : DataPacket)
    (frame : List Nat) (a : SockaddrLinklayer)
    (hsend : respond s p = .ok (.sent frame a))
    (hsrc : p.SrcMac.length = 6) (hdst : p.DstMac.length = 6) :
    a.Halen = 6 ∧ a.Addr.take 6 = p.DstMac ∧ frame.take 6 = p.SrcMac := by
  unfold respond at hsend
  split at hsend
  · exact absurd hsend (by simp)
  · exact absurd hsend (by simp)
  next r heq =>
    simp only [GoResult.ok.injEq, SendAction.sent.injEq] at hsend
    obtain ⟨hframe, haddr⟩ := hsend
    have hdm : r.DstMac = p.SrcMac := by
      split at heq
      · exact processRequest_dstMac s p r heq
      split at heq
      · simp only [GoResult.ok.injEq] at heq
        exact processDiscover_dstMac s p r heq
      · exact absurd heq (by simp)
    subst hframe
    subst haddr
    refine ⟨rfl, ?_, ?_⟩
    · show (copiedAddr p).take 6 = p.DstMac
      unfold copiedAddr
      have h8 : ((p.DstMac ++ p.SrcMac).take 8).length = 8 := by
        simp [List.length_take, hdst, hsrc]
      rw [h8]
      simp only [Nat.sub_self, List.replicate_zero, List.append_nil, List.take_take]
      norm_num
      exact List.take_left' hdst
    · rw [marshal_take_six r (by rw [hdm]; exact hsrc)]
      exact hdm

/-- Witness for the amended C2 at the concrete Discover input. -/
theorem C2_amended_sendto_addressing_witness :
    (respondAddr cServer cDiscover).Halen = 6 ∧
    (respondAddr cServer cDiscover).Addr.take 6 = cDiscover.DstMac ∧
    ((prepareOffer cServer cDiscover leaseA).Marshal).take 6 = cDiscover.SrcMac :=
  C2_amended_sendto_addressing cServer cDiscover
    (prepareOffer cServer cDiscover leaseA).Marshal (respondAddr cServer cDiscover)
    (by decide) (by decide) (by decide)

/-- Helper: `find?` skips a block of Dot1Q tag layers whenever the
predicate rejects Dot1Q layers. -/
theorem find?_skip_tags (q : Layer → Bool) (hq : ∀ t, q (tagLayer t) = false)
    (tcis : List (Nat × Nat)) (rest : List Layer) :
    List.find? q (tcis.map tagLayer ++ rest) = List.find? q rest := by
  induction tcis with
  | nil => rfl
  | cons t ts ih =>
    simp only [List.map_cons, List.cons_append]
    rw [List.find?_cons_of_neg _ (by simp [hq t])]
    exact ih

/-- Helper: the VLAN loop maps a block of Dot1Q tag layers to their full
16-bit tag-control values, in order, when the remaining layers contribute
nothing. -/
theorem extractVlans_tags (tcis : List (Nat × Nat)) (rest : List Layer)
    (h : extractVlans rest = []) :
    extractVlans (tcis.map tagLayer ++ rest) = tcis.map tciVal := by
  induction tcis with
  | nil => simpa using h
  | cons t ts ih =>
    show tciVal t :: extractVlans (List.map tagLayer ts ++ rest) = List.map tciVal (t :: ts)
    rw [ih]
    rfl

/-- Helper: decoding a frame with any number of stacked tags succeeds and
yields the `DataPacket` whose VLAN sequence is the tag-control value of
each tag in order. -/
theorem parsePacket_mkTagged (tcis : List (Nat × Nat)) :
    parsePacket (mkTagged tcis) =
      .parsed (buildDataPacket macA macB 33024 (tcis.map tciVal)
        [0, 0, 0, 0] [255, 255, 255, 255] 68 67 cAppDisc 1 (parseOptions cAppDisc) 1) := by
  have hl : linkLayer (mkTagged tcis) = some (.ethernet macA macB 33024) := rfl
  have hn : networkLayer (mkTagged tcis) =
      some (.ipv4 [0, 0, 0, 0] [255, 255, 255, 255]) := by
    show List.find? isNetwork (Layer.ethernet macA macB 33024 :: (tcis.map tagLayer ++
      [Layer.ipv4 [0, 0, 0, 0] [255, 255, 255, 255], Layer.udp 68 67,
       Layer.appPayload cAppDisc])) = _
    rw [List.find?_cons_of_neg _ (by decide)]
    rw [find?_skip_tags isNetwork (fun t => rfl) tcis]
    rfl
  have ht : transportLayer (mkTagged tcis) = some (.udp 68 67) := by
    show List.find? isTransport (Layer.ethernet macA macB 33024 :: (tcis.map tagLayer ++
      [Layer.ipv4 [0, 0, 0, 0] [255, 255, 255, 255], Layer.udp 68 67,
       Layer.appPayload cAppDisc])) = _
    rw [List.find?_cons_of_neg _ (by decide)]
    rw [find?_skip_tags isTransport (fun t => rfl) tcis]
    rfl
  have ha : applicationLayer (mkTagged tcis) = some (.appPayload cAppDisc) := by
    show List.find? isApplication (Layer.ethernet macA macB 33024 :: (tcis.map tagLayer ++
      [Layer.ipv4 [0, 0, 0, 0] [255, 255, 255, 255], Layer.udp 68 67,
       Layer.appPayload cAppDisc])) = _
    rw [List.find?_cons_of_neg _ (by decide)]
    rw [find?_skip_tags isApplication (fun t => rfl) tcis]
    rfl
  have hv : extractVlans (mkTagged tcis).layers = tcis.map tciVal := by
    show extractVlans (_ :: (tcis.map tagLayer ++ _)) = _
    exact extractVlans_tags tcis _ rfl
  simp only [parsePacket, hl, hn, ht, ha, hv]
  rfl

/-- Claim C4 counterexample: a frame with THREE stacked 802.1Q tags is
decoded successfully (the claim says exceeding a depth of 2 yields a
`TooManyVlanTags` decode error); all three ids are extracted. -/
theorem C4_three_tags_decode :
    parsedVlans (parsePacket (mkTagged threeTags)) = some [100, 200, 300] ∧
    msgTypeOf (parsePacket (mkTagged threeTags)) = some dhcp4Discover := by
  refine ⟨by decide, by decide⟩

/-- Claim C4 (amended): the VLAN-tag parsing loop is unbounded — a frame
with any number of stacked tags decodes successfully with one entry per
tag, and no tag-depth decode error exists. -/
theorem C4_amended_unbounded_tags (tcis : List (Nat × Nat)) :
    parsedVlans (parsePacket (mkTagged tcis)) = some (tcis.map tciVal) ∧
    (tcis.map tciVal).length = tcis.length := by
  rw [parsePacket_mkTagged]
  exact ⟨rfl, by simp⟩

/-- Claim C5 counterexample: a single tag whose tag-control bytes are
`0xA0 0x64` (priority 5, drop-eligible 0, 12-bit id 100) is decoded as
the entry 41060 = 0xA064, the full 16-bit tag-control value — not the
12-bit id 100 the claim specifies. -/
theorem C5_priority_bits_not_masked :
    parsedVlans (parsePacket prioTagged) = some [41060] ∧
    parsedVlans (parsePacket prioTagged) ≠ some [100] := by
  refine ⟨by decide, by decide⟩

/-- Claim C5 (amended): for a frame with 0, 1 or 2 stacked tags the
decoded VLAN sequence has exactly one entry per tag, in the original
outer-to-inner order, but each entry is the full 16-bit tag-control value
`contents[0] <<< 8 + contents[1]` (priority and drop-eligible bits
included), not the 12-bit id. -/
theorem C5_amended_full_tci_entries (tcis : List (Nat × Nat))
    (_h : tcis.length ≤ 2) :
    parsedVlans (parsePacket (mkTagged tcis)) = some (tcis.map tciVal) ∧
    (tcis.map tciVal).length = tcis.length := by
  rw [parsePacket_mkTagged]
  exact ⟨rfl, by simp⟩

/-- Witness for the amended C5 with two tags. -/
theorem C5_amended_full_tci_entries_witness :
    parsedVlans (parsePacket (mkTagged twoTags)) = some (twoTags.map tciVal) ∧
    (twoTags.map tciVal).length = twoTags.length :=
  C5_amended_full_tci_entries twoTags (by decide)

/-- Claim C6 counterexample: a frame whose network layer is IPv6 makes
`parsePacket` panic (the unchecked `.(*layers.IPv4)` type assertion), so
the dispatcher iteration crashes the process — no `UnsupportedNetworkLayer`
error value is returned and the loop does not continue. -/
theorem C6_nonipv4_panics :
    parsePacket ipv6Pkt = .panicked ∧
    runStep cServer ipv6Pkt = .crashed := by
  refine ⟨by decide, by decide⟩

/-- Claim C6 (amended): a frame whose network layer is not IPv4 does not
produce a recoverable decode error — `parsePacket` panics via the failed
type assertion and the process terminates; only the decode errors that
are actually returned (the malformed message-type option) are logged and
dropped by the dispatcher, which then continues the loop. -/
theorem C6_amended_panic_vs_recovery :
    (∀ pkt, isIPv4Opt (networkLayer pkt) = false → parsePacket pkt = .panicked) ∧
    (∀ s pkt e, parsePacket pkt = .errored e → runStep s pkt = .dropped e) := by
  constructor
  · intro pkt hn
    unfold parsePacket
    split
    · split
      next sip dip heq => rw [heq] at hn; simp [isIPv4Opt] at hn
      next => rfl
    · rfl
  · intro s pkt e h
    unfold runStep
    rw [h]

/-- Witness for the amended C6: the IPv6 frame panics, and the concrete
malformed-message-type frame is dropped with the loop continuing. -/
theorem C6_amended_panic_vs_recovery_witness :
    parsePacket ipv6Pkt = .panicked ∧
    runStep cServer badMsgTypePkt = .dropped "Cannot parse DHCP message type" := by
  constructor
  · exact C6_amended_panic_vs_recovery.1 ipv6Pkt (by decide)
  · exact C6_amended_panic_vs_recovery.2 cServer badMsgTypePkt _ (by decide)

/-- Claim C8: when the frame's layers decode (Ethernet link layer, IPv4
network layer, UDP transport layer, non-empty application payload) and
the message-type option (53) is present, a value whose length is not
exactly one byte makes decoding fail with the malformed-option error,
and a one-byte value makes decoding succeed with that byte as the
message type. -/
theorem C8_msgtype_option_length (pkt : GoPacket) (srcM dstM : List Nat) (et : Nat)
    (sip dip : List Nat) (sport dport : Nat) (app v : List Nat)
    (hl : linkLayer pkt = some (.ethernet srcM dstM et))
    (hn : networkLayer pkt = some (.ipv4 sip dip))
    (ht : transportLayer pkt = some (.udp sport dport))
    (ha : applicationLayer pkt = some (.appPayload app))
    (hne : app ≠ [])
    (h53 : lookupOpt (parseOptions app) 53 = some v) :
    (v.length ≠ 1 → parsePacket pkt = .errored "Cannot parse DHCP message type") ∧
    (∀ b, v = [b] → msgTypeOf (parsePacket pkt) = some b) := by
  obtain ⟨op, rest, rfl⟩ := List.exists_cons_of_ne_nil hne
  simp only [parsePacket, hl, hn, ht, ha, h53]
  constructor
  · intro hv
    rw [if_pos hv]
  · intro b hb
    subst hb
    rw [if_neg (by simp)]
    rfl

/-- Witness for C8: a one-byte message-type option sets the type; a
two-byte one fails decoding with the malformed-option error. -/
theorem C8_msgtype_option_length_witness :
    msgTypeOf (parsePacket goodMsgTypePkt) = some dhcp4Request ∧
    parsePacket badMsgTypePkt = .errored "Cannot parse DHCP message type" := by
  constructor
  · exact (C8_msgtype_option_length goodMsgTypePkt macA macB 2048 [0, 0, 0, 0]
      [255, 255, 255, 255] 68 67 cAppZeroCi [3] rfl rfl rfl rfl (by decide)
      (by decide)).2 3 rfl
  · exact (C8_msgtype_option_length badMsgTypePkt macA macB 2048 [0, 0, 0, 0]
      [255, 255, 255, 255] 68 67 (mkDhcpBytes [0, 0, 0, 0] [53, 2, 1, 1, 255]) [1, 1]
      rfl rfl rfl rfl (by decide) (by decide)).1 (by decide)

/-- Claim C9: when the frame's layers decode, the message-type option is
well formed (absent or one byte — decoding otherwise fails for unrelated
reasons) and the requested-IP option (50) is present, decoding succeeds
and the requested-IP field holds `net.IPv4` of the value exactly when the
value is 4 bytes long, and is the nil zero value for any other length —
never an error. -/
theorem C9_requested_ip_length (pkt : GoPacket) (srcM dstM : List Nat) (et : Nat)
    (sip dip : List Nat) (sport dport : Nat) (app v : List Nat)
    (hl : linkLayer pkt = some (.ethernet srcM dstM et))
    (hn : networkLayer pkt = some (.ipv4 sip dip))
    (ht : transportLayer pkt = some (.udp sport dport))
    (ha : applicationLayer pkt = some (.appPayload app))
    (hne : app ≠ [])
    (h53ok : ∀ v53, lookupOpt (parseOptions app) 53 = some v53 → v53.length = 1)
    (h50 : lookupOpt (parseOptions app) 50 = some v) :
    requestedIpOf (parsePacket pkt) = some (if v.length = 4 then netIPv4 v else none) := by
  obtain ⟨op, rest, rfl⟩ := List.exists_cons_of_ne_nil hne
  cases h53 : lookupOpt (parseOptions (op :: rest)) 53 with
  | none =>
    simp only [parsePacket, hl, hn, ht, ha, h53, requestedIpOf, buildDataPacket, h50]
  | some v53 =>
    simp only [parsePacket, hl, hn, ht, ha, h53]
    rw [if_neg (not_not_intro (h53ok v53 h53))]
    simp only [requestedIpOf, buildDataPacket]
    rw [h50]

/-- Witness for C9: a 4-byte requested-IP option populates the field; a
2-byte one silently leaves it unset while decoding succeeds. -/
theorem C9_requested_ip_length_witness :
    requestedIpOf (parsePacket reqIp4Pkt) = some (netIPv4 [10, 0, 0, 50]) ∧
    requestedIpOf (parsePacket reqIp2Pkt) = some none := by
  constructor
  · have h := C9_requested_ip_length reqIp4Pkt macA macB 2048 [0, 0, 0, 0]
      [255, 255, 255, 255] 68 67 cAppCi77 [10, 0, 0, 50] rfl rfl rfl rfl (by decide)
      (by intro v53 h53
          have hx : lookupOpt (parseOptions cAppCi77) 53 = some [3] := by decide
          rw [hx] at h53
          injection h53 with h53e
          subst h53e
          rfl)
      (by decide)
    exact h.trans (by decide)
  · have h := C9_requested_ip_length reqIp2Pkt macA macB 2048 [0, 0, 0, 0]
      [255, 255, 255, 255] 68 67 (mkDhcpBytes [0, 0, 0, 0] [53, 1, 3, 50, 2, 10, 0, 255])
      [10, 0] rfl rfl rfl rfl (by decide)
      (by intro v53 h53
          have hx : lookupOpt (parseOptions (mkDhcpBytes [0, 0, 0, 0]
              [53, 1, 3, 50, 2, 10, 0, 255])) 53 = some [3] := by decide
          rw [hx] at h53
          injection h53 with h53e
          subst h53e
          rfl)
      (by decide)
    exact h.trans (by decide)

end DhcpModel
